import Mathlib

/-!
Verification of the OAuth 2.0 identity-provider authentication engine of
go-authcrunch, as found in the oauth package: the function `Authenticate`
together with its token-exchange helpers `fetchAccessToken` and
`fetchFacebookAccessToken`.

The source is embedded shallowly: Go maps of query parameters become
association lists with first-binding lookup, the decoded JSON token
envelope becomes an association list of `Json` values, and the external
collaborators that are not part of the embedded source (the flow state
store, the HTTP transport, `fetchClaims`, `validateAccessToken`,
`fetchUserInfo`, `fetchUserGroups`, and the random generators) are
abstracted into explicitly passed oracle values; the parts of the store
modelled from the specification are marked as such.
-/

namespace Oauth

/-- JSON values as decoded from authorization-server response bodies into a
Go `map[string]interface{}`. The code under verification never inspects the
inside of a non-string value: it only distinguishes strings from
non-strings (Go type assertion `.(string)`), so composite values (objects,
arrays) are represented by the `composite` constructor carrying a tag that
stands for the value's identity. -/
inductive Json where
  | str (s : String)
  | num (n : Int)
  | boolean (b : Bool)
  | null
  | composite (tag : Nat)
  deriving Repr, DecidableEq

/-- Query or form parameter lists (Go `url.Values`); lookup takes the first
binding, mirroring the Go code's `reqParams[k][0]` indexing. -/
abbrev Params := List (String × String)

/-- Lookup of the first value bound to key `k`. -/
def qget (q : Params) (k : String) : Option String :=
  (q.find? (fun p => p.1 == k)).map (fun p => p.2)

/-- Go `url.Values.Set`: replace any binding of `k` by the single value `v`. -/
def paramsSet (q : Params) (k v : String) : Params :=
  q.filter (fun p => p.1 != k) ++ [(k, v)]

/-- Decoded JSON object, Go `map[string]interface{}`. JSON decoding yields
unique keys, so first-binding lookup is faithful. -/
abbrev JsonObj := List (String × Json)

/-- Lookup in a decoded JSON object. -/
def jget (m : JsonObj) (k : String) : Option Json :=
  (m.find? (fun p => p.1 == k)).map (fun p => p.2)

/-- Replace or insert a key of a decoded JSON object. -/
def jsonSet (m : JsonObj) (k : String) (v : Json) : JsonObj :=
  m.filter (fun p => p.1 != k) ++ [(k, v)]

/-- Modelled from the spec: the Flow State Store (spec section 4.1) is not
under `src/`. One entry per outstanding authorization request, keyed by
`state`. The `created_at` timestamp and TTL expiry are omitted because no
claim settled here concerns expiry. -/
structure FlowState where
  nonce : String
  code : Option String
  deriving Repr, DecidableEq

/-- The flow state store: live entries keyed by `state`. -/
abbrev Store := List (String × FlowState)

/-- Modelled from the spec: `exists(state)` membership test of the store. -/
def Store.existsState (s : Store) (st : String) : Bool :=
  s.any (fun e => e.1 == st)

/-- Modelled from the spec: `add(state, nonce)` inserts a fresh entry and
fails (here: leaves the store unchanged) if `state` is already live. -/
def Store.add (s : Store) (st nonce : String) : Store :=
  if s.existsState st then s else s ++ [(st, ⟨nonce, none⟩)]

/-- Modelled from the spec: `add_code(state, code)` attaches the
authorization code to the entry of `state`, failing (no-op) if the state is
absent or already carries a code. -/
def Store.addCode (s : Store) (st code : String) : Store :=
  s.map (fun e =>
    if e.1 == st && e.2.code == none then (e.1, ⟨e.2.nonce, some code⟩) else e)

/-- Modelled from the spec: `consume(state)` atomically reads and removes
the entry. The engine embedded below never invokes it; the claims about
flow-state consumption are settled against that fact. -/
def Store.consume (s : Store) (st : String) : Option FlowState × Store :=
  ((s.find? (fun e => e.1 == st)).map (fun e => e.2),
   s.filter (fun e => e.1 != st))

/-- Number of live entries carrying the given `state` key. -/
def Store.countState (s : Store) (st : String) : Nat :=
  (s.filter (fun e => e.1 == st)).length

/-- Provider configuration (the `config` field of the identity provider). -/
structure Config where
  driver : String
  clientID : String
  clientSecret : String
  scopes : List String
  responseType : List String
  jsCallbackEnabled : Bool
  identityTokenCookieEnabled : Bool
  identityTokenCookieName : String
  deriving Repr, DecidableEq

/-- The identity provider: configuration plus the feature flags the Go code
keeps directly on the provider value. -/
structure IdentityProvider where
  config : Config
  disableNonce : Bool
  disableScope : Bool
  disableResponseType : Bool
  disablePassGrantType : Bool
  enableAcceptHeader : Bool
  requiredTokenFields : List String
  authorizationURL : String
  tokenURL : String
  deriving Repr, DecidableEq

/-- The outbound HTTP request built by a token-exchange function: method,
URL, query-string parameters, form-body parameters, and whether the
`Accept: application/json` header is set. -/
structure HttpRequest where
  method : String
  url : String
  query : Params
  body : Params
  acceptJsonHeader : Bool
  deriving Repr, DecidableEq

/-- Errors of the token-exchange functions. `ioOrDecode` stands for a
transport, body-read or JSON-decode failure; the others are the typed
errors returned from the decoded body. -/
inductive TokenErr where
  | ioOrDecode
  | getFailedDetailed (e d : String)
  | getFailed (e : Json)
  | fieldNotFound (k : String)
  deriving Repr, DecidableEq

/-- Result of a token-exchange function. `panicked` models a failed Go type
assertion (`data["error"].(string)` or `v.(string)` on a non-string
value), which aborts instead of returning. -/
inductive FetchResult where
  | panicked
  | err (e : TokenErr)
  | ok (data : JsonObj)
  deriving Repr, DecidableEq

/-- Token-endpoint response handling, shared verbatim by `fetchAccessToken`
and `fetchFacebookAccessToken`: the two Go functions contain the textually
identical block. `resp` is the decoded JSON body; `none` stands for a
transport, read or decode failure. In Go the `error` branch with an
`error_description` present evaluates `data["error"].(string)` and then
`v.(string)`, panicking if either value is not a string; without a
description a type switch preserves the `error` value whether string or
not. The required-fields loop iterates a Go map in arbitrary order; the
list order used here is one admissible order. -/
def processTokenResp (b : IdentityProvider) (resp : Option JsonObj) : FetchResult :=
  match resp with
  | none => .err .ioOrDecode
  | some data =>
    match jget data "error" with
    | some e =>
      match jget data "error_description" with
      | some d =>
        match e, d with
        | .str es, .str ds => .err (.getFailedDetailed es ds)
        | _, _ => .panicked
      | none => .err (.getFailed e)
    | none =>
      match b.requiredTokenFields.find? (fun k => (jget data k).isNone) with
      | some k => .err (.fieldNotFound k)
      | none => .ok data

/-- Embedding of `fetchAccessToken` (token exchange of the generic driver).
The first component is the outbound request the function builds: a POST to
the token URL whose form body is assembled with `url.Values.Set` in source
order (`client_id`, `client_secret`, `grant_type` unless
`disablePassGrantType`, `state`, `code`, `redirect_uri`). The byte-level
form encoding and the Content-Type and Content-Length headers carry no
information beyond the parameter list and are not represented. The second
component is the result computed from the decoded response body. -/
def fetchAccessToken (b : IdentityProvider) (redirectURI state code : String)
    (resp : Option JsonObj) : HttpRequest × FetchResult :=
  let params0 := paramsSet (paramsSet [] "client_id" b.config.clientID)
    "client_secret" b.config.clientSecret
  let params1 := if !b.disablePassGrantType then
      paramsSet params0 "grant_type" "authorization_code"
    else params0
  let params := paramsSet (paramsSet (paramsSet params1 "state" state)
    "code" code) "redirect_uri" redirectURI
  ({ method := "POST", url := b.tokenURL, query := [], body := params,
     acceptJsonHeader := b.enableAcceptHeader },
   processTokenResp b resp)

/-- Embedding of `fetchFacebookAccessToken`: a GET to the token URL whose
query string carries `client_id`, `client_secret`, `code`, `redirect_uri`
(the `state` argument is accepted but never used, exactly as in the
source), with no form body; response handling is identical to the generic
exchange. -/
def fetchFacebookAccessToken (b : IdentityProvider) (redirectURI state code : String)
    (resp : Option JsonObj) : HttpRequest × FetchResult :=
  let params := paramsSet (paramsSet (paramsSet (paramsSet []
    "client_id" b.config.clientID) "client_secret" b.config.clientSecret)
    "code" code) "redirect_uri" redirectURI
  ({ method := "GET", url := b.tokenURL, query := params, body := [],
     acceptJsonHeader := b.enableAcceptHeader },
   processTokenResp b resp)

/-- Modelled from the spec: `util.GetRandomString n` (not under `src/`)
returns a random string of exactly `n` characters; the randomness source is
abstracted into a `seed`. -/
def GetRandomString (seed n : Nat) : String :=
  String.mk ((List.range n).map (fun i => Char.ofNat (97 + (seed + i) % 26)))

/-- Modelled from the spec: `fetchUserInfo` and `fetchUserGroups` (not
under `src/`) merge the fetched fields into the claim map; on failure the
map is left unchanged and the error is returned to the caller, which in
`Authenticate` only logs it. -/
def mergeClaims (m adds : JsonObj) : JsonObj :=
  adds.foldl (fun acc p => jsonSet acc p.1 p.2) m

/-- Oracle inputs abstracting the engine's external collaborators: the
decoded token-endpoint response body (`none` = transport or decode
failure), the results of `fetchClaims` and `validateAccessToken` (`none` =
error), the outcomes and merged fields of `fetchUserInfo` and
`fetchUserGroups`, the minted `state` (`uuid.New().String()`), and the
random seed feeding `GetRandomString`. -/
structure Effects where
  tokenResp : Option JsonObj
  fetchClaimsResult : Option JsonObj
  validateResult : Option JsonObj
  userInfoErr : Bool
  userInfoAdd : JsonObj
  userGroupsErr : Bool
  userGroupsAdd : JsonObj
  mintedState : String
  randSeed : Nat
  deriving Repr, DecidableEq

/-- Error kinds `Authenticate` returns, named after the corresponding
`errors.ErrIdentityProvider...` values. `fetchAccessTokenFailed` wraps the
inner token-exchange error, as `WithArgs(err)` does. -/
inductive AuthErr where
  | authorizationFailedDetailed (e d : String)
  | authorizationFailed (e : String)
  | authorizationStateNotFound
  | fetchAccessTokenFailed (inner : TokenErr)
  | fetchClaimsFailed
  | validateAccessTokenFailed
  | responseProcessingFailed
  deriving Repr, DecidableEq

/-- Overall result of `Authenticate`: normal success (`nil` return), a
returned error, or a runtime panic from a failed type assertion. -/
inductive AuthResult where
  | success
  | failure (e : AuthErr)
  | panicked
  deriving Repr, DecidableEq

/-- Observable events of one `Authenticate` run, in order: store
operations, the outbound token-exchange call (with the request it would
send), and the invocations of the validation and claims helpers. -/
inductive Event where
  | storeExistsCheck (state : String) (found : Bool)
  | storeAddCode (state code : String)
  | storeAdd (state nonce : String)
  | tokenExchangeCall (req : HttpRequest)
  | validateCall (state : String)
  | fetchClaimsCall
  | userInfoCall
  | userGroupsCall
  deriving Repr, DecidableEq

/-- Outcome of one `Authenticate` run: the returned result, the response
fields of the request context (`Code`, `Payload`, `RedirectURL` split into
base URL and parameter list, and the identity-token cookie as name and
payload), the store after the run, and the event trace. -/
structure AuthOutcome where
  result : AuthResult
  responseCode : Nat
  payload : Option JsonObj
  redirectURL : Option (String × Params)
  cookie : Option (String × String)
  store : Store
  trace : List Event
  deriving Repr, DecidableEq

/-- Tail of the authorization-code branch after a claim map `m0` has been
obtained: `fetchUserInfo` and `fetchUserGroups` are called and their errors
only logged, then the identity-token cookie is emitted when enabled and the
envelope carries an `id_token` (whose `v.(string)` assertion panics on a
non-string), and the response is completed with the claim map and code
200. -/
def afterClaims (b : IdentityProvider) (store : Store) (tr : List Event)
    (accessToken m0 : JsonObj) (fx : Effects) : AuthOutcome :=
  let m1 := if fx.userInfoErr then m0 else mergeClaims m0 fx.userInfoAdd
  let m2 := if fx.userGroupsErr then m1 else mergeClaims m1 fx.userGroupsAdd
  let tr2 := tr ++ [Event.userInfoCall, Event.userGroupsCall]
  if b.config.identityTokenCookieEnabled then
    match jget accessToken "id_token" with
    | some (Json.str v) =>
      { result := .success, responseCode := 200, payload := some m2,
        redirectURL := none,
        cookie := some (b.config.identityTokenCookieName, v),
        store := store, trace := tr2 }
    | some _ =>
      { result := .panicked, responseCode := 400, payload := none,
        redirectURL := none, cookie := none, store := store, trace := tr2 }
    | none =>
      { result := .success, responseCode := 200, payload := some m2,
        redirectURL := none, cookie := none, store := store, trace := tr2 }
  else
    { result := .success, responseCode := 200, payload := some m2,
      redirectURL := none, cookie := none, store := store, trace := tr2 }

/-- The list of drivers whose claims come from `fetchClaims` rather than
from `validateAccessToken` (the `case "github", "gitlab", "facebook",
"discord", "patreon"` of the source). -/
def vendorDrivers : List String :=
  ["github", "gitlab", "facebook", "discord", "patreon"]

/-- The `codeExists && stateExists` branch of `Authenticate`: require the
state to be live, attach the code, run the driver-selected token exchange,
then the claims step, then `afterClaims`. -/
def authenticateCodeFlow (b : IdentityProvider) (reqPath state code : String)
    (store : Store) (fx : Effects) : AuthOutcome :=
  let found := store.existsState state
  let tr0 := [Event.storeExistsCheck state found]
  if found then
    let store1 := store.addCode state code
    let tr1 := tr0 ++ [Event.storeAddCode state code]
    let redirectURI := reqPath ++ "/authorization-code-callback"
    let fetched := if b.config.driver == "facebook" then
        fetchFacebookAccessToken b redirectURI state code fx.tokenResp
      else
        fetchAccessToken b redirectURI state code fx.tokenResp
    let tr2 := tr1 ++ [Event.tokenExchangeCall fetched.1]
    match fetched.2 with
    | .panicked =>
      { result := .panicked, responseCode := 400, payload := none,
        redirectURL := none, cookie := none, store := store1, trace := tr2 }
    | .err e =>
      { result := .failure (.fetchAccessTokenFailed e), responseCode := 400,
        payload := none, redirectURL := none, cookie := none,
        store := store1, trace := tr2 }
    | .ok accessToken =>
      if vendorDrivers.contains b.config.driver then
        match fx.fetchClaimsResult with
        | none =>
          { result := .failure .fetchClaimsFailed, responseCode := 400,
            payload := none, redirectURL := none, cookie := none,
            store := store1, trace := tr2 ++ [Event.fetchClaimsCall] }
        | some m =>
          afterClaims b store1 (tr2 ++ [Event.fetchClaimsCall]) accessToken m fx
      else
        match fx.validateResult with
        | none =>
          { result := .failure .validateAccessTokenFailed, responseCode := 400,
            payload := none, redirectURL := none, cookie := none,
            store := store1, trace := tr2 ++ [Event.validateCall state] }
        | some m =>
          afterClaims b store1 (tr2 ++ [Event.validateCall state]) accessToken m fx
  else
    { result := .failure .authorizationStateNotFound, responseCode := 400,
      payload := none, redirectURL := none, cookie := none,
      store := store, trace := tr0 }

/-- The authorization-URL parameter list built in the flow-initiation
branch, with `url.Values.Set` in source order: `state`; `nonce` unless
`disableNonce`; `scope` (configured scopes plus the space-split
`additional_scopes` of the request, space-joined) unless `disableScope`;
`redirect_uri` depending on `jsCallbackEnabled`; `response_type` unless
`disableResponseType`; `login_hint` when present; `client_id`. -/
def redirectParams (b : IdentityProvider) (reqPath : String)
    (additionalScopes loginHint : Option String) (state nonce : String) : Params :=
  let p0 := paramsSet [] "state" state
  let p1 := if !b.disableNonce then paramsSet p0 "nonce" nonce else p0
  let p2 := if !b.disableScope then
      let scopes := b.config.scopes ++
        (match additionalScopes with
         | some a => a.splitOn " "
         | none => [])
      paramsSet p1 "scope" (String.intercalate " " scopes)
    else p1
  let p3 := if b.config.jsCallbackEnabled then
      paramsSet p2 "redirect_uri" (reqPath ++ "/authorization-code-js-callback")
    else
      paramsSet p2 "redirect_uri" (reqPath ++ "/authorization-code-callback")
  let p4 := if !b.disableResponseType then
      paramsSet p3 "response_type" (String.intercalate " " b.config.responseType)
    else p3
  let p5 := match loginHint with
    | some h => paramsSet p4 "login_hint" h
    | none => p4
  paramsSet p5 "client_id" b.config.clientID

/-- Embedding of `Authenticate`. `reqPath` is the precomputed
`r.Upstream.BaseURL + path.Join(...)`; `reqQuery` the inbound query
parameters; `store` the flow state store at entry; `fx` the oracle inputs
for the external calls. The response code starts at 400 and is only raised
to 200 or 302 where the source assigns it. -/
def Authenticate (b : IdentityProvider) (reqPath : String) (reqQuery : Params)
    (store : Store) (fx : Effects) : AuthOutcome :=
  let accessTokenExists := (qget reqQuery "access_token").isSome
  let idTokenExists := (qget reqQuery "id_token").isSome
  let codeExists := (qget reqQuery "code").isSome
  let stateExists := (qget reqQuery "state").isSome
  let errorExists := (qget reqQuery "error").isSome
  let reqParamsAccessToken := (qget reqQuery "access_token").getD ""
  let reqParamsIDToken := (qget reqQuery "id_token").getD ""
  let reqParamsCode := (qget reqQuery "code").getD ""
  let reqParamsState := (qget reqQuery "state").getD ""
  let reqParamsError := (qget reqQuery "error").getD ""
  if stateExists || errorExists || codeExists || accessTokenExists then
    if errorExists then
      match qget reqQuery "error_description" with
      | some d =>
        { result := .failure (.authorizationFailedDetailed reqParamsError d),
          responseCode := 400, payload := none, redirectURL := none,
          cookie := none, store := store, trace := [] }
      | none =>
        { result := .failure (.authorizationFailed reqParamsError),
          responseCode := 400, payload := none, redirectURL := none,
          cookie := none, store := store, trace := [] }
    else if codeExists && stateExists then
      authenticateCodeFlow b reqPath reqParamsState reqParamsCode store fx
    else if idTokenExists && accessTokenExists then
      -- the envelope handed to validateAccessToken in the implicit branch
      let _envelope : JsonObj :=
        [("access_token", Json.str reqParamsAccessToken),
         ("id_token", Json.str reqParamsIDToken)]
      match fx.validateResult with
      | none =>
        { result := .failure .validateAccessTokenFailed, responseCode := 400,
          payload := none, redirectURL := none, cookie := none,
          store := store, trace := [Event.validateCall reqParamsState] }
      | some m =>
        { result := .success, responseCode := 200, payload := some m,
          redirectURL := none,
          cookie := if b.config.identityTokenCookieEnabled then
              some (b.config.identityTokenCookieName, reqParamsIDToken)
            else none,
          store := store, trace := [Event.validateCall reqParamsState] }
    else
      { result := .failure .responseProcessingFailed, responseCode := 400,
        payload := none, redirectURL := none, cookie := none,
        store := store, trace := [] }
  else
    let state := fx.mintedState
    let nonce := GetRandomString fx.randSeed 32
    let params := redirectParams b reqPath (qget reqQuery "additional_scopes")
      (qget reqQuery "login_hint") state nonce
    { result := .success, responseCode := 302, payload := none,
      redirectURL := some (b.authorizationURL, params), cookie := none,
      store := store.add state nonce,
      trace := [Event.storeAdd state nonce] }

/-! Concrete fixtures used by counterexamples and witnesses. -/

/-- A generic-driver provider with all feature flags off. -/
def bGen : IdentityProvider :=
  { config := { driver := "generic", clientID := "cid", clientSecret := "sec",
                scopes := ["openid"], responseType := ["code"],
                jsCallbackEnabled := false,
                identityTokenCookieEnabled := false,
                identityTokenCookieName := "" },
    disableNonce := false, disableScope := false, disableResponseType := false,
    disablePassGrantType := false, enableAcceptHeader := false,
    requiredTokenFields := [], authorizationURL := "https://as/auth",
    tokenURL := "https://as/token" }

/-- The generic provider with the facebook driver selected. -/
def bFb : IdentityProvider :=
  { bGen with config := { bGen.config with driver := "facebook" } }

/-- The generic provider with `disable_pass_grant_type` set. -/
def bNoGrant : IdentityProvider :=
  { bGen with disablePassGrantType := true }

/-- The generic provider with `disable_nonce` set. -/
def bNoNonce : IdentityProvider :=
  { bGen with disableNonce := true }

/-- Baseline oracle inputs: every external call fails or is unused. -/
def fx0 : Effects :=
  { tokenResp := none, fetchClaimsResult := none, validateResult := none,
    userInfoErr := false, userInfoAdd := [], userGroupsErr := false,
    userGroupsAdd := [], mintedState := "S2", randSeed := 0 }

/-- Oracle inputs for a succeeding facebook code flow. -/
def fxFb : Effects :=
  { fx0 with tokenResp := some [("access_token", Json.str "A")],
             fetchClaimsResult := some [("sub", Json.str "u1")] }

/-- Oracle inputs for a generic code flow whose token exchange and token
validation succeed (with an empty claim map) but whose userinfo and
user-groups fetches both fail. -/
def fxUserInfoFail : Effects :=
  { fx0 with tokenResp := some [("access_token", Json.str "A")],
             validateResult := some [],
             userInfoErr := true, userGroupsErr := true }

/-! Helper lemmas about parameter lists and the store. -/

theorem find?_key_filter_ne {α : Type} (l : List (String × α)) (k : String) :
    (l.filter (fun p => p.1 != k)).find? (fun p => p.1 == k) = none := by
  rw [List.find?_eq_none]
  intro x hx
  have := (List.mem_filter.mp hx).2
  simpa using this

theorem qget_paramsSet_self (q : Params) (k v : String) :
    qget (paramsSet q k v) k = some v := by
  unfold qget paramsSet
  rw [List.find?_append, find?_key_filter_ne]
  simp

theorem find?_key_filter_other {α : Type} (q : List (String × α)) (k k' : String)
    (h : k' ≠ k) :
    (q.filter (fun p => p.1 != k)).find? (fun p => p.1 == k') =
      q.find? (fun p => p.1 == k') := by
  induction q with
  | nil => rfl
  | cons p t ih =>
    by_cases hk : p.1 = k
    · have hp : (p.1 == k') = false := by simp [hk, Ne.symm h]
      have hf : (p.1 != k) = false := by simp [hk]
      simp [List.filter_cons, hf, List.find?_cons, hp, ih]
    · have hf : (p.1 != k) = true := by simp [hk]
      by_cases hp : p.1 = k'
      · have hpt : (p.1 == k') = true := by simp [hp]
        simp [List.filter_cons, hf, List.find?_cons, hpt]
      · have hpf : (p.1 == k') = false := by simp [hp]
        simp [List.filter_cons, hf, List.find?_cons, hpf, ih]

theorem qget_paramsSet_ne (q : Params) (k v k' : String) (h : k' ≠ k) :
    qget (paramsSet q k v) k' = qget q k' := by
  unfold qget paramsSet
  rw [List.find?_append, find?_key_filter_other q k k' h]
  have h2 : List.find? (fun p => p.1 == k') [(k, v)] = none := by
    have hkk : (k == k') = false := by simp [Ne.symm h]
    simp [List.find?_cons, hkk]
  rw [h2]
  cases q.find? (fun p => p.1 == k') <;> simp

theorem mem_paramsSet {q : Params} {k v : String} {x : String × String}
    (h : x ∈ paramsSet q k v) : x ∈ q ∨ x.1 = k := by
  unfold paramsSet at h
  rcases List.mem_append.mp h with h1 | h1
  · exact Or.inl (List.mem_filter.mp h1).1
  · simp at h1
    exact Or.inr (by rw [h1])

theorem Store.existsState_addCode (s : Store) (st code st' : String) :
    (s.addCode st code).existsState st' = s.existsState st' := by
  unfold Store.addCode Store.existsState
  rw [List.any_map]
  congr 1
  funext e
  by_cases h : e.1 == st && e.2.code == none <;> simp [h, Function.comp]

theorem length_filter_key_map {α β : Type} (f : String × α → String × β)
    (hf : ∀ e, (f e).1 = e.1) (l : List (String × α)) (k : String) :
    ((l.map f).filter (fun p => p.1 == k)).length =
      (l.filter (fun p => p.1 == k)).length := by
  induction l with
  | nil => rfl
  | cons e t ih =>
    simp only [List.map_cons, List.filter_cons, hf e]
    by_cases h2 : e.1 == k <;> simp [h2, ih]

theorem Store.countState_addCode (s : Store) (st code st' : String) :
    (s.addCode st code).countState st' = s.countState st' := by
  unfold Store.addCode Store.countState
  exact length_filter_key_map _
    (fun e => by by_cases hc : e.1 == st && e.2.code == none <;> simp [hc]) s st'

theorem Store.countState_of_not_exists (s : Store) (st : String)
    (h : s.existsState st = false) : s.countState st = 0 := by
  unfold Store.countState
  rw [List.length_eq_zero, List.filter_eq_nil_iff]
  intro e he hbeq
  have hx : s.existsState st = true := by
    unfold Store.existsState
    exact List.any_eq_true.mpr ⟨e, he, hbeq⟩
  rw [h] at hx
  exact Bool.false_ne_true hx

/-! Claim theorems. -/

/-- C4: for every inbound request whose query contains an `error`
parameter, `Authenticate` returns `AuthorizationFailedDetailed` carrying
the `error` and `error_description` values when `error_description` is
present and `AuthorizationFailed` carrying the `error` value otherwise,
with response code 400 and an empty event trace — hence before any flow
state lookup or outbound request — whatever other parameters the request
carries. -/
theorem C4_error_precedence (b : IdentityProvider) (reqPath : String)
    (q : Params) (st : Store) (fx : Effects) (e : String)
    (he : qget q "error" = some e) :
    (Authenticate b reqPath q st fx).responseCode = 400 ∧
    (Authenticate b reqPath q st fx).trace = [] ∧
    (∀ d, qget q "error_description" = some d →
      (Authenticate b reqPath q st fx).result =
        .failure (.authorizationFailedDetailed e d)) ∧
    (qget q "error_description" = none →
      (Authenticate b reqPath q st fx).result =
        .failure (.authorizationFailed e)) := by
  unfold Authenticate
  cases hd : qget q "error_description" <;> simp [he, hd]

/-- C4 witness: a concrete request carrying `error` and
`error_description`. -/
theorem C4_witness :
    (Authenticate bGen "p" [("error", "access_denied"),
      ("error_description", "user cancelled")] [] fx0).responseCode = 400 ∧
    (Authenticate bGen "p" [("error", "access_denied"),
      ("error_description", "user cancelled")] [] fx0).result =
      .failure (.authorizationFailedDetailed "access_denied" "user cancelled") := by
  have h := C4_error_precedence bGen "p" [("error", "access_denied"),
    ("error_description", "user cancelled")] [] fx0 "access_denied" (by decide)
  exact ⟨h.1, h.2.2.1 "user cancelled" (by decide)⟩

/-- C6: for every decoded token-endpoint JSON object without an `error`
key, if some key of `required_token_fields` is absent the exchange returns
`AuthorizationServerResponseFieldNotFound` naming an absent required key,
and if all required keys are present it returns the decoded envelope
unchanged; this holds for the generic and the facebook exchange alike. -/
theorem C6_required_fields (b : IdentityProvider) (r s c : String)
    (data : JsonObj) (he : jget data "error" = none) :
    ((∀ k, k ∈ b.requiredTokenFields → (jget data k).isSome) →
      (fetchAccessToken b r s c (some data)).2 = .ok data ∧
      (fetchFacebookAccessToken b r s c (some data)).2 = .ok data) ∧
    ((∃ k, k ∈ b.requiredTokenFields ∧ jget data k = none) →
      ∃ k, k ∈ b.requiredTokenFields ∧ jget data k = none ∧
        (fetchAccessToken b r s c (some data)).2 = .err (.fieldNotFound k) ∧
        (fetchFacebookAccessToken b r s c (some data)).2 =
          .err (.fieldNotFound k)) := by
  constructor
  · intro hall
    have hfind : b.requiredTokenFields.find? (fun k => (jget data k).isNone) =
        none := by
      rw [List.find?_eq_none]
      intro k hk
      simp only [Option.isNone_iff_eq_none]
      intro hcon
      have hs := hall k hk
      rw [hcon] at hs
      exact Bool.false_ne_true (Option.isSome_none ▸ hs)
    constructor <;> simp [fetchAccessToken, fetchFacebookAccessToken,
      processTokenResp, he, hfind]
  · rintro ⟨k, hk, hnone⟩
    have hsome : (b.requiredTokenFields.find?
        (fun k => (jget data k).isNone)).isSome := by
      rw [List.find?_isSome]
      exact ⟨k, hk, by simp [hnone]⟩
    obtain ⟨k', hk'⟩ := Option.isSome_iff_exists.mp hsome
    refine ⟨k', List.mem_of_find?_eq_some hk', ?_, ?_, ?_⟩
    · have hp := List.find?_some hk'
      simpa using hp
    · simp [fetchAccessToken, processTokenResp, he, hk']
    · simp [fetchFacebookAccessToken, processTokenResp, he, hk']

/-- C6 witness: with required fields `access_token`, `token_type` and a
complete envelope, both exchanges return the envelope unchanged. -/
theorem C6_witness :
    (fetchAccessToken { bGen with requiredTokenFields :=
        ["access_token", "token_type"] } "r" "s" "c"
      (some [("access_token", Json.str "A"),
             ("token_type", Json.str "Bearer")])).2 =
      .ok [("access_token", Json.str "A"), ("token_type", Json.str "Bearer")] := by
  have h := (C6_required_fields { bGen with requiredTokenFields :=
      ["access_token", "token_type"] } "r" "s" "c"
    [("access_token", Json.str "A"), ("token_type", Json.str "Bearer")]
    (by decide)).1 (by decide)
  exact h.1

/-- C5 counterexample: a token-endpoint body whose `error` value is not a
string while `error_description` is present makes both exchanges panic on
the `data["error"].(string)` type assertion instead of returning
`GetAccessTokenFailedDetailed`, so the claim fails as stated. -/
theorem C5_counterexample :
    (fetchAccessToken bGen "r" "s" "c"
      (some [("error", Json.composite 0),
             ("error_description", Json.str "denied")])).2 = .panicked ∧
    (fetchFacebookAccessToken bGen "r" "s" "c"
      (some [("error", Json.composite 0),
             ("error_description", Json.str "denied")])).2 = .panicked ∧
    (∀ es ds, FetchResult.panicked ≠ .err (.getFailedDetailed es ds)) := by
  refine ⟨by decide, by decide, ?_⟩
  intro es ds h
  exact FetchResult.noConfusion h

/-- C5 amended: when the decoded body has an `error` key, the exchange
preserves the error value — string or arbitrary JSON — only in the
`GetAccessTokenFailed` case, which requires `error_description` to be
absent; when `error_description` is present it returns
`GetAccessTokenFailedDetailed` with both values when both are strings and
panics otherwise; the facebook exchange behaves identically. -/
theorem C5_amended (b : IdentityProvider) (r s c : String) (data : JsonObj)
    (e : Json) (he : jget data "error" = some e) :
    (jget data "error_description" = none →
      (fetchAccessToken b r s c (some data)).2 = .err (.getFailed e)) ∧
    (∀ es ds, e = Json.str es →
      jget data "error_description" = some (Json.str ds) →
      (fetchAccessToken b r s c (some data)).2 =
        .err (.getFailedDetailed es ds)) ∧
    (∀ d, jget data "error_description" = some d → (∀ es, e ≠ Json.str es) →
      (fetchAccessToken b r s c (some data)).2 = .panicked) ∧
    (∀ d, jget data "error_description" = some d → (∀ ds, d ≠ Json.str ds) →
      (fetchAccessToken b r s c (some data)).2 = .panicked) ∧
    (fetchFacebookAccessToken b r s c (some data)).2 =
      (fetchAccessToken b r s c (some data)).2 := by
  refine ⟨?_, ?_, ?_, ?_, rfl⟩
  · intro hd
    simp [fetchAccessToken, processTokenResp, he, hd]
  · intro es ds hes hd
    simp [fetchAccessToken, processTokenResp, he, hd, hes]
  · intro d hd hnstr
    cases e with
    | str es => exact absurd rfl (hnstr es)
    | num n => cases d <;> simp [fetchAccessToken, processTokenResp, he, hd]
    | boolean bv => cases d <;> simp [fetchAccessToken, processTokenResp, he, hd]
    | null => cases d <;> simp [fetchAccessToken, processTokenResp, he, hd]
    | composite t => cases d <;> simp [fetchAccessToken, processTokenResp, he, hd]
  · intro d hd hnstr
    cases d with
    | str ds => exact absurd rfl (hnstr ds)
    | num n => cases e <;> simp [fetchAccessToken, processTokenResp, he, hd]
    | boolean bv => cases e <;> simp [fetchAccessToken, processTokenResp, he, hd]
    | null => cases e <;> simp [fetchAccessToken, processTokenResp, he, hd]
    | composite t => cases e <;> simp [fetchAccessToken, processTokenResp, he, hd]

/-- C5 witness: a string `error` with no description yields
`GetAccessTokenFailed` preserving the value. -/
theorem C5_witness :
    (fetchAccessToken bGen "r" "s" "c" (some [("error", Json.str "bad")])).2 =
      .err (.getFailed (Json.str "bad")) :=
  (C5_amended bGen "r" "s" "c" [("error", Json.str "bad")] (Json.str "bad")
    (by decide)).1 (by decide)

/-- C7 counterexample: with `disable_pass_grant_type` set, the generic
exchange's form body does not include `grant_type`, so the claim's
statement that the generic exchange always POSTs a body including
`grant_type=authorization_code` fails. -/
theorem C7_counterexample :
    bNoGrant.disablePassGrantType = true ∧
    (fetchAccessToken bNoGrant "r" "s" "c" none).1.method = "POST" ∧
    qget (fetchAccessToken bNoGrant "r" "s" "c" none).1.body "grant_type" =
      none := by
  decide

/-- C7 amended: the facebook exchange sends a GET whose query-string
parameter set is exactly `client_id`, `client_secret`, `code`,
`redirect_uri` — neither `grant_type` nor `state` — with an empty body,
while the generic exchange POSTs a form body carrying `client_id`,
`client_secret`, `state`, `code`, `redirect_uri`, and
`grant_type=authorization_code` exactly when `disable_pass_grant_type` is
unset. -/
theorem C7_amended (b : IdentityProvider) (r s c : String)
    (resp : Option JsonObj) :
    (fetchFacebookAccessToken b r s c resp).1.method = "GET" ∧
    (fetchFacebookAccessToken b r s c resp).1.query.map Prod.fst =
      ["client_id", "client_secret", "code", "redirect_uri"] ∧
    (fetchFacebookAccessToken b r s c resp).1.body = [] ∧
    qget (fetchFacebookAccessToken b r s c resp).1.query "grant_type" = none ∧
    qget (fetchFacebookAccessToken b r s c resp).1.query "state" = none ∧
    (fetchAccessToken b r s c resp).1.method = "POST" ∧
    (fetchAccessToken b r s c resp).1.query = [] ∧
    qget (fetchAccessToken b r s c resp).1.body "state" = some s ∧
    qget (fetchAccessToken b r s c resp).1.body "code" = some c ∧
    qget (fetchAccessToken b r s c resp).1.body "redirect_uri" = some r ∧
    qget (fetchAccessToken b r s c resp).1.body "client_id" =
      some b.config.clientID ∧
    qget (fetchAccessToken b r s c resp).1.body "client_secret" =
      some b.config.clientSecret ∧
    (b.disablePassGrantType = false →
      qget (fetchAccessToken b r s c resp).1.body "grant_type" =
        some "authorization_code") ∧
    (b.disablePassGrantType = true →
      qget (fetchAccessToken b r s c resp).1.body "grant_type" = none) := by
  cases hg : b.disablePassGrantType <;>
    simp [fetchAccessToken, fetchFacebookAccessToken, paramsSet, qget, hg,
      List.find?_cons, List.filter_cons]

/-- C7 witness: the facebook request of a concrete provider is a GET with
exactly the four parameters. -/
theorem C7_witness :
    (fetchFacebookAccessToken bGen "r" "s" "c" none).1.method = "GET" ∧
    (fetchFacebookAccessToken bGen "r" "s" "c" none).1.query.map Prod.fst =
      ["client_id", "client_secret", "code", "redirect_uri"] :=
  ⟨(C7_amended bGen "r" "s" "c" none).1, (C7_amended bGen "r" "s" "c" none).2.1⟩

/-- C1 counterexample: a callback carrying `code` and a non-live `state`
but also an `error` parameter returns `AuthorizationFailed`, not
`AuthorizationStateNotFound`; the claim as stated, quantified over every
request carrying `code` and a non-live `state`, fails. -/
theorem C1_counterexample :
    (qget [("error", "access_denied"), ("code", "abc"), ("state", "SX")]
      "code").isSome = true ∧
    (qget [("error", "access_denied"), ("code", "abc"), ("state", "SX")]
      "state").isSome = true ∧
    Store.existsState [] "SX" = false ∧
    (Authenticate bGen "p" [("error", "access_denied"), ("code", "abc"),
      ("state", "SX")] [] fx0).result =
      .failure (.authorizationFailed "access_denied") ∧
    (Authenticate bGen "p" [("error", "access_denied"), ("code", "abc"),
      ("state", "SX")] [] fx0).result ≠
      .failure .authorizationStateNotFound := by
  decide

/-- C1 amended: for every callback carrying `code` and `state` but no
`error` parameter, when the `state` is not live in the flow state store,
`Authenticate` returns `AuthorizationStateNotFound` and the token-exchange
function is never invoked (no outbound request to the authorization
server). -/
theorem C1_amended (b : IdentityProvider) (reqPath : String) (q : Params)
    (st : Store) (fx : Effects) (c s : String)
    (hc : qget q "code" = some c) (hs : qget q "state" = some s)
    (he : qget q "error" = none) (hnf : st.existsState s = false) :
    (Authenticate b reqPath q st fx).result =
      .failure .authorizationStateNotFound ∧
    ∀ req, Event.tokenExchangeCall req ∉ (Authenticate b reqPath q st fx).trace := by
  unfold Authenticate authenticateCodeFlow
  simp [hc, hs, he, hnf]

/-- C1 witness: a concrete unknown-state callback without `error`. -/
theorem C1_witness :
    (Authenticate bGen "p" [("code", "abc"), ("state", "SX")] [] fx0).result =
      .failure .authorizationStateNotFound :=
  (C1_amended bGen "p" [("code", "abc"), ("state", "SX")] [] fx0 "abc" "SX"
    (by decide) (by decide) (by decide) (by decide)).1

/-- C10 counterexample: a request carrying `id_token` and `access_token`
without `state` but with an `error` parameter is answered by the `error`
branch: the implicit-flow branch is not entered and token validation is
never invoked, so the claim fails as stated. -/
theorem C10_counterexample :
    (qget [("id_token", "J"), ("access_token", "A"), ("error", "boom")]
      "id_token").isSome = true ∧
    (qget [("id_token", "J"), ("access_token", "A"), ("error", "boom")]
      "access_token").isSome = true ∧
    qget [("id_token", "J"), ("access_token", "A"), ("error", "boom")]
      "state" = none ∧
    (Authenticate bGen "p" [("id_token", "J"), ("access_token", "A"),
      ("error", "boom")] [] fx0).result = .failure (.authorizationFailed "boom") ∧
    Event.validateCall "" ∉ (Authenticate bGen "p" [("id_token", "J"),
      ("access_token", "A"), ("error", "boom")] [] fx0).trace := by
  decide

/-- C10 amended: for every request carrying `id_token` and `access_token`
but neither `state` nor `error`, `Authenticate` does not return
`ResponseProcessingFailed`: it enters the implicit-flow branch, invokes
token validation with the empty string as the state, and never checks the
flow state store. -/
theorem C10_amended (b : IdentityProvider) (reqPath : String) (q : Params)
    (st : Store) (fx : Effects) (j a : String)
    (hid : qget q "id_token" = some j) (hat : qget q "access_token" = some a)
    (hns : qget q "state" = none) (hne : qget q "error" = none) :
    (Authenticate b reqPath q st fx).result ≠
      .failure .responseProcessingFailed ∧
    (Authenticate b reqPath q st fx).trace = [Event.validateCall ""] ∧
    (∀ s f, Event.storeExistsCheck s f ∉ (Authenticate b reqPath q st fx).trace) := by
  unfold Authenticate
  cases hv : fx.validateResult <;> simp [hid, hat, hns, hne, hv]

/-- C10 witness: a concrete implicit-flow request without `state`. -/
theorem C10_witness :
    (Authenticate bGen "p" [("id_token", "J"), ("access_token", "A")] []
      fx0).trace = [Event.validateCall ""] :=
  (C10_amended bGen "p" [("id_token", "J"), ("access_token", "A")] [] fx0
    "J" "A" (by decide) (by decide) (by decide) (by decide)).2.1

set_option maxHeartbeats 2000000 in
/-- C3: for every inbound request carrying none of `access_token`,
`id_token`, `code`, `state`, `error`, `Authenticate` answers with a 302
redirect to the authorization URL whose query parameters are exactly
`state`, `client_id` and `redirect_uri` unconditionally, `nonce` unless
`disableNonce`, `scope` — the configured scopes plus the space-split
`additional_scopes` of the request, space-joined — unless `disableScope`,
`response_type` from the configured list unless `disableResponseType`, and
`login_hint` exactly when the inbound request carries it. -/
theorem C3_redirect (b : IdentityProvider) (reqPath : String) (q : Params)
    (st : Store) (fx : Effects)
    (h1 : qget q "access_token" = none) (h2 : qget q "id_token" = none)
    (h3 : qget q "code" = none) (h4 : qget q "state" = none)
    (h5 : qget q "error" = none) :
    (Authenticate b reqPath q st fx).responseCode = 302 ∧
    (Authenticate b reqPath q st fx).redirectURL =
      some (b.authorizationURL,
        redirectParams b reqPath (qget q "additional_scopes")
          (qget q "login_hint") fx.mintedState
          (GetRandomString fx.randSeed 32)) ∧
    qget (redirectParams b reqPath (qget q "additional_scopes")
        (qget q "login_hint") fx.mintedState (GetRandomString fx.randSeed 32))
      "state" = some fx.mintedState ∧
    qget (redirectParams b reqPath (qget q "additional_scopes")
        (qget q "login_hint") fx.mintedState (GetRandomString fx.randSeed 32))
      "client_id" = some b.config.clientID ∧
    qget (redirectParams b reqPath (qget q "additional_scopes")
        (qget q "login_hint") fx.mintedState (GetRandomString fx.randSeed 32))
      "redirect_uri" = some (reqPath ++
        (if b.config.jsCallbackEnabled then "/authorization-code-js-callback"
         else "/authorization-code-callback")) ∧
    qget (redirectParams b reqPath (qget q "additional_scopes")
        (qget q "login_hint") fx.mintedState (GetRandomString fx.randSeed 32))
      "nonce" = (if b.disableNonce then none
        else some (GetRandomString fx.randSeed 32)) ∧
    qget (redirectParams b reqPath (qget q "additional_scopes")
        (qget q "login_hint") fx.mintedState (GetRandomString fx.randSeed 32))
      "scope" = (if b.disableScope then none
        else some (String.intercalate " " (b.config.scopes ++
          (match qget q "additional_scopes" with
           | some a => a.splitOn " "
           | none => [])))) ∧
    qget (redirectParams b reqPath (qget q "additional_scopes")
        (qget q "login_hint") fx.mintedState (GetRandomString fx.randSeed 32))
      "response_type" = (if b.disableResponseType then none
        else some (String.intercalate " " b.config.responseType)) ∧
    qget (redirectParams b reqPath (qget q "additional_scopes")
        (qget q "login_hint") fx.mintedState (GetRandomString fx.randSeed 32))
      "login_hint" = qget q "login_hint" ∧
    (redirectParams b reqPath (qget q "additional_scopes")
        (qget q "login_hint") fx.mintedState
        (GetRandomString fx.randSeed 32)).map Prod.fst =
      ["state"] ++ (if b.disableNonce then [] else ["nonce"]) ++
      (if b.disableScope then [] else ["scope"]) ++ ["redirect_uri"] ++
      (if b.disableResponseType then [] else ["response_type"]) ++
      (match qget q "login_hint" with
       | some _ => ["login_hint"]
       | none => []) ++ ["client_id"] := by
  refine ⟨?_, ?_, ?_, ?_, ?_, ?_, ?_, ?_, ?_, ?_⟩
  · simp [Authenticate, h1, h2, h3, h4, h5]
  · simp [Authenticate, h1, h2, h3, h4, h5]
  all_goals
    cases hn : b.disableNonce <;> cases hsc : b.disableScope <;>
    cases hrt : b.disableResponseType <;>
    cases hjs : b.config.jsCallbackEnabled <;>
    cases hlh : qget q "login_hint" <;>
    simp [redirectParams, paramsSet, qget, hn, hsc, hrt, hjs, hlh,
      List.find?_cons, List.filter_cons]

/-- C3 witness: a bare request yields the 302 redirect with `state`,
`nonce`, `scope`, `redirect_uri`, `response_type`, `client_id`. -/
theorem C3_witness :
    (Authenticate bGen "p" [] [] fx0).responseCode = 302 ∧
    (redirectParams bGen "p" (qget [] "additional_scopes")
        (qget [] "login_hint") fx0.mintedState
        (GetRandomString fx0.randSeed 32)).map Prod.fst =
      ["state"] ++ ["nonce"] ++ ["scope"] ++ ["redirect_uri"] ++
        ["response_type"] ++ [] ++ ["client_id"] := by
  have h := C3_redirect bGen "p" [] [] fx0 rfl rfl rfl rfl rfl
  exact ⟨h.1, h.2.2.2.2.2.2.2.2.2⟩

/-- Length of the modelled random string. -/
theorem GetRandomString_length (seed n : Nat) :
    (GetRandomString seed n).length = n := by
  simp [GetRandomString, String.length]

/-- C8 counterexample: with `disable_nonce` set, a flow initiation still
registers the freshly minted 32-character nonce in the flow state entry
(`state.add` is called unconditionally in the source), so the nonce is
never omitted from the stored entry and the claimed equivalence fails. -/
theorem C8_counterexample :
    bNoNonce.disableNonce = true ∧
    ((Authenticate bNoNonce "p" [] [] fx0).store.map
      (fun e => (e.1, e.2.nonce.length, e.2.code))) = [("S2", 32, none)] := by
  decide

/-- C8 amended: every flow initiated by the engine registers a FlowState
entry carrying the 32-character random nonce regardless of
`disable_nonce`; the flag only omits `nonce` from the redirect URL
parameters, never from the stored entry. -/
theorem C8_amended (b : IdentityProvider) (reqPath : String) (q : Params)
    (st : Store) (fx : Effects)
    (h1 : qget q "access_token" = none) (h3 : qget q "code" = none)
    (h4 : qget q "state" = none) (h5 : qget q "error" = none)
    (hfresh : st.existsState fx.mintedState = false) :
    (Authenticate b reqPath q st fx).store =
      st ++ [(fx.mintedState, ⟨GetRandomString fx.randSeed 32, none⟩)] ∧
    (GetRandomString fx.randSeed 32).length = 32 ∧
    (qget (redirectParams b reqPath (qget q "additional_scopes")
        (qget q "login_hint") fx.mintedState (GetRandomString fx.randSeed 32))
      "nonce").isSome = (!b.disableNonce) := by
  refine ⟨?_, GetRandomString_length fx.randSeed 32, ?_⟩
  · simp [Authenticate, h1, h3, h4, h5, Store.add, hfresh]
  · cases hn : b.disableNonce <;> cases hsc : b.disableScope <;>
      cases hrt : b.disableResponseType <;>
      cases hjs : b.config.jsCallbackEnabled <;>
      cases hlh : qget q "login_hint" <;>
      simp [redirectParams, paramsSet, qget, hn, hsc, hrt, hjs, hlh,
        List.find?_cons, List.filter_cons]

/-- C8 witness: a flow initiated with `disable_nonce` set still stores the
32-character nonce. -/
theorem C8_witness :
    (Authenticate bNoNonce "p" [] [] fx0).store =
      [("S2", ⟨GetRandomString 0 32, none⟩)] ∧
    (GetRandomString 0 32).length = 32 := by
  have h := C8_amended bNoNonce "p" [] [] fx0 rfl rfl rfl rfl rfl
  exact ⟨h.1, h.2.1⟩

/-- Both token exchanges process the response identically. -/
theorem fetchAccessToken_snd (b : IdentityProvider) (r s c : String)
    (resp : Option JsonObj) :
    (fetchAccessToken b r s c resp).2 = processTokenResp b resp := rfl

/-- Both token exchanges process the response identically. -/
theorem fetchFacebookAccessToken_snd (b : IdentityProvider) (r s c : String)
    (resp : Option JsonObj) :
    (fetchFacebookAccessToken b r s c resp).2 = processTokenResp b resp := rfl

theorem Store.countState_append (s1 s2 : Store) (st : String) :
    (s1 ++ s2).countState st = s1.countState st + s2.countState st := by
  unfold Store.countState
  simp [List.filter_append]

/-- The post-claims tail never touches the store. -/
theorem afterClaims_store (b : IdentityProvider) (store : Store)
    (tr : List Event) (accessToken m0 : JsonObj) (fx : Effects) :
    (afterClaims b store tr accessToken m0 fx).store = store := by
  unfold afterClaims
  cases hck : b.config.identityTokenCookieEnabled
  · simp [hck]
  · simp only [hck, ite_true]
    cases hjt : jget accessToken "id_token"
    · simp [hjt]
    · rename_i v
      cases v <;> simp [hjt]

/-- Whatever the branch taken inside the code-and-state flow with a live
state, the store `Authenticate` leaves behind is exactly the original
store with the code attached: the entry is never consumed. -/
theorem authenticateCodeFlow_store (b : IdentityProvider) (reqPath s c : String)
    (st : Store) (fx : Effects) (hex : st.existsState s = true) :
    (authenticateCodeFlow b reqPath s c st fx).store = st.addCode s c := by
  simp only [authenticateCodeFlow, hex, ite_true, apply_ite Prod.snd,
    fetchAccessToken_snd, fetchFacebookAccessToken_snd, ite_self]
  cases hpr : processTokenResp b fx.tokenResp with
  | panicked => rfl
  | err e => rfl
  | ok data =>
    cases hvd : vendorDrivers.contains b.config.driver
    · simp only [hvd, Bool.false_eq_true, ite_false]
      cases hvr : fx.validateResult
      · rfl
      · exact afterClaims_store b (st.addCode s c) _ data _ fx
    · simp only [hvd, ite_true]
      cases hfc : fx.fetchClaimsResult
      · rfl
      · exact afterClaims_store b (st.addCode s c) _ data _ fx

/-- C2 counterexample: a successful code-and-state callback (facebook
driver, exchange and claims fetch both succeed) returns success and code
200 while the flow state entry of the state is still live in the store —
the entry was not consumed before `Authenticate` returned success. -/
theorem C2_counterexample :
    (Authenticate bFb "p" [("code", "abc"), ("state", "S1")]
      [("S1", ⟨"N1", none⟩)] fxFb).result = .success ∧
    (Authenticate bFb "p" [("code", "abc"), ("state", "S1")]
      [("S1", ⟨"N1", none⟩)] fxFb).responseCode = 200 ∧
    (Authenticate bFb "p" [("code", "abc"), ("state", "S1")]
      [("S1", ⟨"N1", none⟩)] fxFb).store = [("S1", ⟨"N1", some "abc"⟩)] ∧
    (Authenticate bFb "p" [("code", "abc"), ("state", "S1")]
      [("S1", ⟨"N1", none⟩)] fxFb).store.existsState "S1" = true := by
  decide

/-- C2 amended: a state freshly emitted on flow initiation appears in the
store exactly once after the redirect is issued, and a code-and-state
callback with a live state preserves the entry with unchanged multiplicity
(it is updated with the code, never removed); in particular a successful
callback does not consume the flow state before `Authenticate` returns. -/
theorem C2_amended :
    (∀ (b : IdentityProvider) (reqPath : String) (q : Params) (st : Store)
        (fx : Effects),
      qget q "access_token" = none → qget q "code" = none →
      qget q "state" = none → qget q "error" = none →
      st.existsState fx.mintedState = false →
      (Authenticate b reqPath q st fx).store.countState fx.mintedState = 1) ∧
    (∀ (b : IdentityProvider) (reqPath : String) (q : Params) (st : Store)
        (fx : Effects) (c s : String),
      qget q "code" = some c → qget q "state" = some s →
      qget q "error" = none → st.existsState s = true →
      (Authenticate b reqPath q st fx).store.countState s = st.countState s ∧
      (Authenticate b reqPath q st fx).store.existsState s = true) := by
  constructor
  · intro b reqPath q st fx h1 h3 h4 h5 hfresh
    have hstore : (Authenticate b reqPath q st fx).store =
        st ++ [(fx.mintedState, ⟨GetRandomString fx.randSeed 32, none⟩)] := by
      simp [Authenticate, h1, h3, h4, h5, Store.add, hfresh]
    rw [hstore, Store.countState_append,
      Store.countState_of_not_exists st fx.mintedState hfresh]
    simp [Store.countState]
  · intro b reqPath q st fx c s hc hs he hex
    have hstore : (Authenticate b reqPath q st fx).store = st.addCode s c := by
      have hbr : Authenticate b reqPath q st fx =
          authenticateCodeFlow b reqPath s c st fx := by
        simp [Authenticate, hc, hs, he]
      rw [hbr]
      exact authenticateCodeFlow_store b reqPath s c st fx hex
    rw [hstore]
    refine ⟨Store.countState_addCode st s c s, ?_⟩
    rw [Store.existsState_addCode]
    exact hex

/-- C2 witness: the two parts instantiated — a fresh initiation leaves the
minted state exactly once in the store, and a live-state callback keeps
the state live. -/
theorem C2_witness :
    (Authenticate bGen "p" [] [] fx0).store.countState "S2" = 1 ∧
    (Authenticate bFb "p" [("code", "abc"), ("state", "S1")]
      [("S1", ⟨"N1", none⟩)] fxFb).store.existsState "S1" = true :=
  ⟨C2_amended.1 bGen "p" [] [] fx0 rfl rfl rfl rfl rfl,
   (C2_amended.2 bFb "p" [("code", "abc"), ("state", "S1")]
     [("S1", ⟨"N1", none⟩)] fxFb "abc" "S1" (by decide) (by decide) (by decide)
     (by decide)).2⟩

/-- With the identity cookie disabled, the post-claims tail always
completes with success, code 200 and the (best-effort extended) claim
map. -/
theorem afterClaims_nocookie (b : IdentityProvider) (store : Store)
    (tr : List Event) (accessToken m0 : JsonObj) (fx : Effects)
    (hck : b.config.identityTokenCookieEnabled = false) :
    afterClaims b store tr accessToken m0 fx =
      { result := .success, responseCode := 200,
        payload := some (if fx.userGroupsErr then
            (if fx.userInfoErr then m0 else mergeClaims m0 fx.userInfoAdd)
          else mergeClaims
            (if fx.userInfoErr then m0 else mergeClaims m0 fx.userInfoAdd)
            fx.userGroupsAdd),
        redirectURL := none, cookie := none, store := store,
        trace := tr ++ [Event.userInfoCall, Event.userGroupsCall] } := by
  unfold afterClaims
  simp [hck]

/-- C9 counterexample: in a generic-driver callback whose token validation
yields an empty claim map, a failing userinfo fetch is logged and
swallowed — the outcome is still success with code 200 and the unextended
(empty) claim map — even though no complete identity was assembled;
`Authenticate` never surfaces `FetchClaimsFailed` from the userinfo step,
so the claim fails as stated. -/
theorem C9_counterexample :
    fxUserInfoFail.userInfoErr = true ∧
    (Authenticate bGen "p" [("code", "abc"), ("state", "S1")]
      [("S1", ⟨"N1", none⟩)] fxUserInfoFail).result = .success ∧
    (Authenticate bGen "p" [("code", "abc"), ("state", "S1")]
      [("S1", ⟨"N1", none⟩)] fxUserInfoFail).responseCode = 200 ∧
    (Authenticate bGen "p" [("code", "abc"), ("state", "S1")]
      [("S1", ⟨"N1", none⟩)] fxUserInfoFail).payload = some [] := by
  decide

/-- C9 amended: in a code-and-state callback that reaches the claims
phase, failures of the userinfo and group-fetch steps are both logged and
swallowed unconditionally — the response is still 200 with the claim map
whatever the outcome of those two steps — while `FetchClaimsFailed` is
surfaced exactly when the vendor-driver claims fetch (`fetchClaims`, used
for github, gitlab, facebook, discord, patreon) fails. -/
theorem C9_amended (b : IdentityProvider) (reqPath : String) (q : Params)
    (st : Store) (fx : Effects) (c s : String) (data : JsonObj)
    (hc : qget q "code" = some c) (hs : qget q "state" = some s)
    (he : qget q "error" = none) (hex : st.existsState s = true)
    (hpr : processTokenResp b fx.tokenResp = .ok data)
    (hck : b.config.identityTokenCookieEnabled = false) :
    (vendorDrivers.contains b.config.driver = true →
      fx.fetchClaimsResult = none →
      (Authenticate b reqPath q st fx).result = .failure .fetchClaimsFailed) ∧
    (∀ m, vendorDrivers.contains b.config.driver = true →
      fx.fetchClaimsResult = some m →
      (Authenticate b reqPath q st fx).result = .success ∧
      (Authenticate b reqPath q st fx).responseCode = 200 ∧
      (Authenticate b reqPath q st fx).payload =
        some (if fx.userGroupsErr then
            (if fx.userInfoErr then m else mergeClaims m fx.userInfoAdd)
          else mergeClaims
            (if fx.userInfoErr then m else mergeClaims m fx.userInfoAdd)
            fx.userGroupsAdd)) ∧
    (∀ m, vendorDrivers.contains b.config.driver = false →
      fx.validateResult = some m →
      (Authenticate b reqPath q st fx).result = .success ∧
      (Authenticate b reqPath q st fx).responseCode = 200 ∧
      (Authenticate b reqPath q st fx).payload =
        some (if fx.userGroupsErr then
            (if fx.userInfoErr then m else mergeClaims m fx.userInfoAdd)
          else mergeClaims
            (if fx.userInfoErr then m else mergeClaims m fx.userInfoAdd)
            fx.userGroupsAdd)) := by
  have hbr : Authenticate b reqPath q st fx =
      authenticateCodeFlow b reqPath s c st fx := by
    simp [Authenticate, hc, hs, he]
  rw [hbr]
  simp only [authenticateCodeFlow, hex, ite_true, apply_ite Prod.snd,
    fetchAccessToken_snd, fetchFacebookAccessToken_snd, ite_self, hpr]
  refine ⟨?_, ?_, ?_⟩
  · intro hvd hfc
    have hmem : b.config.driver ∈ vendorDrivers := by simpa using hvd
    simp [hmem, hfc]
  · intro m hvd hfc
    have hmem : b.config.driver ∈ vendorDrivers := by simpa using hvd
    simp [hmem, hfc, afterClaims_nocookie, hck]
  · intro m hvd hvr
    have hmem : b.config.driver ∉ vendorDrivers := by simpa using hvd
    simp [hmem, hvr, afterClaims_nocookie, hck]

/-- C9 witness: a facebook-driver callback whose claims fetch fails
surfaces `FetchClaimsFailed`, and one whose userinfo step fails still
succeeds. -/
theorem C9_witness :
    (Authenticate bFb "p" [("code", "abc"), ("state", "S1")]
      [("S1", ⟨"N1", none⟩)]
      { fxFb with fetchClaimsResult := none }).result =
      .failure .fetchClaimsFailed :=
  (C9_amended bFb "p" [("code", "abc"), ("state", "S1")]
    [("S1", ⟨"N1", none⟩)] { fxFb with fetchClaimsResult := none }
    "abc" "S1" [("access_token", Json.str "A")]
    (by decide) (by decide) (by decide) (by decide) (by decide)
    (by decide)).1 (by decide) (by decide)

end Oauth
